import Mathlib

/-!
Verification development for the cam-viewer DVR web UI.

The TypeScript sources are embedded shallowly:
* JavaScript numbers are modelled as `ℚ` (exact arithmetic); where the
  JavaScript arithmetic can produce `NaN` or infinities (the click-to-seek
  division in `timeline-component.ts`) an explicit `JSNum` type mirrors the
  IEEE special values and the propagation rules of `Math.max` / `Math.min`.
* The reactive signal watchers (`signals.ts`, `player-component.ts`) are
  modelled as pure step functions on the state they read and write.
* The Lit component state mutated by the timeline handlers
  (`timeline-component.ts`) is an explicit `TimelineState` record, and each
  handler is a function from state to state.
* The Dexie queries (`player-component.ts`, `dvr-ui.ts`) are modelled as
  filter / sort operations over an explicit list of `Video` rows.
-/

namespace CamViewer

/-- The enum `TimestampSignalSource` from `src/signals.ts`. -/
inductive TimestampSignalSource
  | user
  | playerComponent
  | dvrUiTimelineComponent
  deriving DecidableEq, Repr

/-- The interface `TimestampSignalI` from `src/signals.ts`: the playhead value
(seconds within the selected day) together with the origin of the last write. -/
structure TimestampSignal where
  value : ℚ
  source : TimestampSignalSource
  deriving DecidableEq, Repr

/-- The enum `PlayerState` from `src/signals.ts`. -/
inductive PlayerState
  | playing
  | paused
  deriving DecidableEq, Repr

/-- The body of the `signalWatcher` notify callback in `src/signals.ts`
(lines 20-33): it switches on the source of the observed `TIMESTAMP_SIG`
write and either leaves `PLAYERSTATE_SIG` alone (PLAYER_COMPONENT) or sets it
to PAUSED (USER, DVR_UI_TIMELINE_COMPONENT).  The argument `ps` is the value
of `PLAYERSTATE_SIG` before the notification, the result its value after. -/
def signalWatcherNotify (sig : TimestampSignal) (ps : PlayerState) : PlayerState :=
  match sig.source with
  | TimestampSignalSource.playerComponent => ps
  | TimestampSignalSource.user => PlayerState.paused
  | TimestampSignalSource.dvrUiTimelineComponent => PlayerState.paused

/-- The fields of `PlayerComponent` (`src/player-component.ts`) read by its
`signalWatcher` callback: the day-relative window of the loaded segment
(`videoStart`, `videoEnd`) and whether `playerRef.value` is defined. -/
structure PlayerObsState where
  videoStart : ℚ
  videoEnd : ℚ
  playerRefDefined : Bool
  deriving DecidableEq, Repr

/-- The `timestampWithinVideo` test of `src/player-component.ts` line 161:
`videoStart <= TIMESTAMP_SIG.value && TIMESTAMP_SIG.value < videoEnd`. -/
def timestampWithinVideo (st : PlayerObsState) (sig : TimestampSignal) : Bool :=
  decide (st.videoStart ≤ sig.value ∧ sig.value < st.videoEnd)

/-- Whether the seek path of the `signalWatcher` callback in
`src/player-component.ts` (lines 163-170) executes for an observed write:
it pauses the media element and assigns `currentTime = value - videoStart`
exactly when the timestamp is within the loaded video, the player ref is
defined, and the write's source is not PLAYER_COMPONENT. -/
def seekPathRuns (st : PlayerObsState) (sig : TimestampSignal) : Bool :=
  timestampWithinVideo st sig && st.playerRefDefined &&
    decide (sig.source ≠ TimestampSignalSource.playerComponent)

/-- Number of seek side effects produced by a sequence of observed writes
(the observer state is not changed by the seek path itself). -/
def countSeeks (st : PlayerObsState) (writes : List TimestampSignal) : Nat :=
  writes.countP (seekPathRuns st)

/-! ### Timeline geometry (`src/timeline-component.ts`) -/

/-- `baseZoomLevel` of `TimelineComponent` (line 56): pixels per hour at
zoom level 1. -/
def baseZoomLevel : ℚ := 100

/-- `SECONDS_IN_DAY` from `src/timeline-component.ts` line 19. -/
def SECONDS_IN_DAY : ℚ := 24 * 60 * 60

/-- The zoom bounds of `TimelineComponent` (lines 58-59); they are derived
from `document.documentElement.clientWidth` at construction time, so they are
parameters of the model. -/
structure TimelineConsts where
  minZoomLevel : ℚ
  maxZoomLevel : ℚ
  deriving DecidableEq, Repr

/-- The mutable view state of `TimelineComponent`: `zoomLevel` (line 63),
`timelineWidth` (line 49) and `leftOffset` (line 43). -/
structure TimelineState where
  zoomLevel : ℚ
  timelineWidth : ℚ
  leftOffset : ℚ
  deriving DecidableEq, Repr

/-- The clamp of a requested zoom level in `handleZoom` (lines 128-131):
`Math.max(minZoomLevel, Math.min(maxZoomLevel, newZoomLevel))`. -/
def clampZoom (c : TimelineConsts) (newZoomLevel : ℚ) : ℚ :=
  max c.minZoomLevel (min c.maxZoomLevel newZoomLevel)

/-- The unclamped new left offset computed by `handleZoom` (lines 138-156):
`absolutePosAfter - visualPosInContainer` where the anchor is the current
player time read from `TIMESTAMP_SIG`. -/
def zoomRawOffset (s : TimelineState) (clampedZoom playerTimeValue : ℚ) : ℚ :=
  let originalTimelineWidth := 24 * baseZoomLevel * s.zoomLevel
  let playerTimeInPercentage := playerTimeValue / SECONDS_IN_DAY
  let absolutePosBefore := originalTimelineWidth * playerTimeInPercentage
  let visualPosInContainer := absolutePosBefore - s.leftOffset
  let newTimelineWidth := 24 * baseZoomLevel * clampedZoom
  newTimelineWidth * playerTimeInPercentage - visualPosInContainer

/-- `handleZoom` from `src/timeline-component.ts` lines 115-182.
`containerWidth` is `timelineContainerRef.value?.clientWidth ?? 0` and
`playerTimeValue` is `TIMESTAMP_SIG.get().value`.  The handler returns early
(no mutation) when the container has no width or when the clamped zoom equals
the current zoom; otherwise it sets the new zoom, recomputes the timeline
width, and clamps the anchor-preserving offset into
`[0, max(0, timelineWidth - containerWidth)]`. -/
def handleZoom (c : TimelineConsts) (containerWidth playerTimeValue : ℚ)
    (s : TimelineState) (newZoomLevel : ℚ) : TimelineState :=
  if containerWidth = 0 then s
  else
    let clampedNewZoomLevel := clampZoom c newZoomLevel
    if clampedNewZoomLevel = s.zoomLevel then s
    else
      let newTimelineWidth := 24 * baseZoomLevel * clampedNewZoomLevel
      let newLeftOffset0 := zoomRawOffset s clampedNewZoomLevel playerTimeValue
      let newLeftOffset1 := max 0 newLeftOffset0
      let maxOffset := max 0 (newTimelineWidth - containerWidth)
      { zoomLevel := clampedNewZoomLevel
        timelineWidth := newTimelineWidth
        leftOffset := min maxOffset newLeftOffset1 }

/-- The pan and zoom gestures dispatched by `handleKeyDown` (lines 195-224)
and `handleWheel` (lines 184-193) of `src/timeline-component.ts`. -/
inductive TimelineOp
  | panLeft
  | panRight
  | zoomInKey
  | zoomOutKey
  | wheel (deltaYPositive : Bool)
  deriving DecidableEq, Repr

/-- One gesture step.  Pan left / right subtracts / adds 50 pixels to
`leftOffset` with no clamping (lines 197-204); the zoom keys and the wheel
call `handleZoom` with factor 1.1 or 0.9 times the current zoom.  A missing
container rect makes the zoom paths no-ops, which coincides with
`handleZoom` at `containerWidth = 0`. -/
def timelineStep (c : TimelineConsts) (containerWidth playerTimeValue : ℚ)
    (s : TimelineState) : TimelineOp → TimelineState
  | TimelineOp.panLeft => { s with leftOffset := s.leftOffset - 50 }
  | TimelineOp.panRight => { s with leftOffset := s.leftOffset + 50 }
  | TimelineOp.zoomInKey =>
      handleZoom c containerWidth playerTimeValue s (11 / 10 * s.zoomLevel)
  | TimelineOp.zoomOutKey =>
      handleZoom c containerWidth playerTimeValue s (9 / 10 * s.zoomLevel)
  | TimelineOp.wheel b =>
      handleZoom c containerWidth playerTimeValue s
        ((if b then 9 / 10 else 11 / 10) * s.zoomLevel)

/-- A sequence of gestures applied in order. -/
def runOps (c : TimelineConsts) (containerWidth playerTimeValue : ℚ)
    (s : TimelineState) (ops : List TimelineOp) : TimelineState :=
  ops.foldl (timelineStep c containerWidth playerTimeValue) s

/-- Pixel position of a seconds-of-day value on the timeline strip at a given
zoom level, as computed by `createPlayerTimeIndicator` (lines 274-277):
`(24 * baseZoomLevel * zoomLevel) * (t / 86400)`, which equals
`t * (baseZoomLevel * zoomLevel) / 3600`. -/
def timeToPixel (zoomLevel t : ℚ) : ℚ :=
  24 * baseZoomLevel * zoomLevel * (t / SECONDS_IN_DAY)

/-! ### Click-to-seek (`handleMouseDown`, `src/timeline-component.ts` 77-89)

JavaScript division can produce NaN (0/0) or signed infinities (x/0), and
`Math.max` / `Math.min` propagate NaN; `JSNum` mirrors exactly those values
for this computation. -/

/-- A JavaScript number: finite (exact rational), NaN, or a signed infinity. -/
inductive JSNum
  | nan
  | posInf
  | negInf
  | fin (q : ℚ)
  deriving DecidableEq, Repr

/-- JavaScript division of two finite numbers. -/
def jsDiv (a b : ℚ) : JSNum :=
  if b = 0 then
    if a = 0 then JSNum.nan
    else if 0 < a then JSNum.posInf
    else JSNum.negInf
  else JSNum.fin (a / b)

/-- `Math.max(0.0, x)`: NaN propagates, and negative infinity loses to 0. -/
def jsMax0 : JSNum → JSNum
  | JSNum.nan => JSNum.nan
  | JSNum.posInf => JSNum.posInf
  | JSNum.negInf => JSNum.fin 0
  | JSNum.fin q => JSNum.fin (max 0 q)

/-- `Math.min(1.0, x)`: NaN propagates, and positive infinity loses to 1. -/
def jsMin1 : JSNum → JSNum
  | JSNum.nan => JSNum.nan
  | JSNum.posInf => JSNum.fin 1
  | JSNum.negInf => JSNum.negInf
  | JSNum.fin q => JSNum.fin (min 1 q)

/-- Multiplication of a JavaScript number by a positive finite constant. -/
def jsMulPos (c : ℚ) : JSNum → JSNum
  | JSNum.nan => JSNum.nan
  | JSNum.posInf => JSNum.posInf
  | JSNum.negInf => JSNum.negInf
  | JSNum.fin q => JSNum.fin (c * q)

/-- The `percentage` of `handleMouseDown` (line 80):
`Math.min(1.0, Math.max(0.0, (clientX + leftOffset) / timelineWidth))`
with `timelineWidth = 24 * baseZoomLevel * zoomLevel` (line 78). -/
def mouseDownPercentage (clientX leftOffset zoomLevel : ℚ) : JSNum :=
  jsMin1 (jsMax0 (jsDiv (clientX + leftOffset) (24 * baseZoomLevel * zoomLevel)))

/-- The `tempPlayerTime` of `handleMouseDown` (line 82):
`totalSecondsInDay * percentage`. -/
def mouseDownTemp (clientX leftOffset zoomLevel : ℚ) : JSNum :=
  jsMulPos SECONDS_IN_DAY (mouseDownPercentage clientX leftOffset zoomLevel)

/-- `handleMouseDown` (lines 77-89): writes `TIMESTAMP_SIG` with
`source = USER`; if `tempPlayerTime` is NaN the value written is `0.0`,
otherwise `tempPlayerTime` itself.  The written value is kept as a `JSNum`
so that the model can state that it is always finite. -/
def handleMouseDown (clientX leftOffset zoomLevel : ℚ) :
    JSNum × TimestampSignalSource :=
  if mouseDownTemp clientX leftOffset zoomLevel = JSNum.nan then
    (JSNum.fin 0, TimestampSignalSource.user)
  else
    (mouseDownTemp clientX leftOffset zoomLevel, TimestampSignalSource.user)

/-! ### Coalescing and the timeline task (`src/dvr-ui.ts` 552-624) -/

/-- The interface `TimeRanges` of `src/timeline-component.ts` (lines 14-17):
a band of availability with absolute start and end.  The luxon `DateTime`
endpoints are modelled by their epoch-second values; `DateTime.equals` on
values built with `DateTime.fromSeconds` is equality of those seconds.
`endS` stands for the source field `end`, a reserved word in Lean. -/
structure TimeRange where
  start : ℚ
  endS : ℚ
  deriving DecidableEq, Repr

/-- The coalescing loop of `buildTimelineTask` (`src/dvr-ui.ts` lines
588-605), with the accumulated `timeRanges`, the open `currentTimeRange`
and the remaining videos made explicit.  A video merges into the open range
exactly when `currentTimeRange.end.equals(parsedCurrentRange.start)`, in
which case the open range's end becomes the video's end; otherwise the open
range is emitted and the video starts a new one. -/
def coalesceLoop : List TimeRange → Option TimeRange → List TimeRange → List TimeRange
  | [], none, acc => acc
  | [], some cur, acc => acc ++ [cur]
  | v :: rest, none, acc => coalesceLoop rest (some v) acc
  | v :: rest, some cur, acc =>
      if cur.endS = v.start then
        coalesceLoop rest (some { start := cur.start, endS := v.endS }) acc
      else
        coalesceLoop rest (some v) (acc ++ [cur])

/-- The coalesced `timeRanges` produced by `buildTimelineTask` from the
camera's videos (each video contributing the range
`[vidStartEpoch, vidEndEpoch]`, in the sorted order of the query). -/
def coalesce (videoRanges : List TimeRange) : List TimeRange :=
  coalesceLoop videoRanges none []

/-- `checkTimestampInRange` of `buildTimelineTask` (lines 578-585): whether
the current playhead value lies in a range, after translating the range's
endpoints to seconds relative to the selected day. -/
def checkTimestampInRange (selectedDateEpoch cur : ℚ) (r : TimeRange) : Bool :=
  decide (r.start - selectedDateEpoch ≤ cur ∧ cur ≤ r.endS - selectedDateEpoch)

/-- The `timestampIsValid` flag computed by `buildTimelineTask` (lines
587-605).  In the source it is accumulated while ranges are emitted (with
`||` on each emission, including the final open range), which amounts to:
some coalesced range contains the current playhead value. -/
def timelineTimestampIsValid (videoRanges : List TimeRange)
    (selectedDateEpoch cur : ℚ) : Bool :=
  (coalesce videoRanges).any (checkTimestampInRange selectedDateEpoch cur)

/-- The `TIMESTAMP_SIG.set` performed by `buildTimelineTask` (lines 606-614).
It is executed unconditionally: the value written is the first coalesced
range's start relative to the selected day (or 0 with no ranges), with
source DVR_UI_TIMELINE_COMPONENT; `timestampIsValid` is never consulted. -/
def buildTimelineWrite (videoRanges : List TimeRange)
    (selectedDateEpoch : ℚ) : TimestampSignal :=
  let timeRanges := coalesce videoRanges
  { value :=
      match timeRanges with
      | [] => 0
      | r :: _ => r.start - selectedDateEpoch
    source := TimestampSignalSource.dvrUiTimelineComponent }

/-! ### The video index (`src/cam-videos.ts`, `src/player-component.ts`) -/

/-- The interface `Video` of `src/cam-videos.ts` (lines 9-22); the `id`
assigned by Dexie is irrelevant to the claims and omitted. -/
structure Video where
  camName : String
  vidStartEpoch : ℚ
  vidEndEpoch : ℚ
  vidDayStart : ℚ
  vidDayEnd : ℚ
  filePath : String
  deriving DecidableEq, Repr

/-- The Dexie query of `getVideosOfDay` (`src/player-component.ts` lines
49-58): rows whose `camName` equals the selected camera and with
`startDay <= vidStartEpoch && vidEndEpoch <= endDay`, sorted by
`vidDayStart`. -/
def getVideosOfDay (db : List Video) (selectedCameraId : String)
    (startDay endDay : ℚ) : List Video :=
  (db.filter fun v =>
      decide (v.camName = selectedCameraId ∧
        startDay ≤ v.vidStartEpoch ∧ v.vidEndEpoch ≤ endDay)).mergeSort
    fun a b => decide (a.vidDayStart ≤ b.vidDayStart)

/-- A raw catalog video entry (`VideoEntryData` in `src/cam-data.ts`), with
`timeOfVideoStart` already put through `DateTime.fromISO`: `some s` is a
valid parse with epoch seconds `s`, `none` an invalid one. -/
structure RawVideo where
  timeOfVideoStart : Option ℚ
  path : String
  deriving DecidableEq, Repr

/-- An hour bucket of the catalog (`HourVideoImageData`). -/
structure HourData where
  videos : List RawVideo
  deriving DecidableEq, Repr

/-- A date bucket of the catalog, with the date key already put through
`DateTime.fromFormat(date, "yyyy-MM-dd")`: `some d` is a valid parse with
epoch seconds `d`. -/
structure DateEntry where
  dateEpoch : Option ℚ
  hours : List HourData
  deriving DecidableEq, Repr

/-- One camera of the catalog (`CamEntry`). -/
structure CamEntryData where
  camName : String
  dates : List DateEntry
  deriving DecidableEq, Repr

/-- The rows built by `PushCamDataToDatabase` (`src/cam-videos.ts` lines
35-73).  Invalid dates and invalid video starts are skipped; for a valid
start `s` the end is `s` plus one minute (luxon `plus({ minutes: 1 })` on a
timestamp adds exactly 60 seconds), and the day-relative fields are the
absolute differences against the parsed date's epoch. -/
def pushCamDataEntries (camData : List CamEntryData) : List Video :=
  camData.flatMap fun cam =>
    cam.dates.flatMap fun de =>
      match de.dateEpoch with
      | none => []
      | some d =>
          de.hours.flatMap fun h =>
            h.videos.filterMap fun v =>
              v.timeOfVideoStart.map fun s =>
                { camName := cam.camName
                  vidStartEpoch := s
                  vidEndEpoch := s + 60
                  vidDayStart := |d - s|
                  vidDayEnd := |d - (s + 60)|
                  filePath := v.path }

/-! ## Theorems -/

/-- Claim C1: a Player-origin write to the playhead signal never executes the
player state machine's seek path: for any sequence of PLAYER_COMPONENT-origin
writes whose values lie inside the loaded video's [videoStart, videoEnd)
window, zero pause / position-assignment side effects occur. -/
theorem player_origin_writes_never_seek (st : PlayerObsState)
    (writes : List TimestampSignal)
    (h : ∀ w ∈ writes, w.source = TimestampSignalSource.playerComponent ∧
      st.videoStart ≤ w.value ∧ w.value < st.videoEnd) :
    countSeeks st writes = 0 := by
  unfold countSeeks
  rw [List.countP_eq_zero]
  intro w hw
  obtain ⟨hs, _, _⟩ := h w hw
  simp [seekPathRuns, hs]

/-- Witness for C1: a burst of 1000 in-window PLAYER_COMPONENT-origin writes
produces zero seeks. -/
theorem player_origin_writes_never_seek_witness :
    countSeeks ⟨10, 70, true⟩
      (List.replicate 1000 ⟨30, TimestampSignalSource.playerComponent⟩) = 0 :=
  player_origin_writes_never_seek _ _ (by
    intro w hw
    rw [List.eq_of_mem_replicate hw]
    exact ⟨rfl, by norm_num, by norm_num⟩)

/-- Claim C2: the signals.ts watcher forces the playback command state to
PAUSED on every USER- or DVR_UI_TIMELINE_COMPONENT-origin playhead write,
and leaves it unchanged on every PLAYER_COMPONENT-origin write. -/
theorem watcher_forces_paused_except_player (v : ℚ) (ps : PlayerState) :
    signalWatcherNotify ⟨v, TimestampSignalSource.user⟩ ps = PlayerState.paused ∧
    signalWatcherNotify ⟨v, TimestampSignalSource.dvrUiTimelineComponent⟩ ps =
      PlayerState.paused ∧
    signalWatcherNotify ⟨v, TimestampSignalSource.playerComponent⟩ ps = ps :=
  ⟨rfl, rfl, rfl⟩

/-- Counterexample for C4: the coalescing loop does not merge overlapping
segments; [0,60] and [30,90] stay separate instead of producing [0,90],
because the merge test is exact end-equals-start equality. -/
theorem coalesce_overlap_not_merged :
    coalesce [⟨0, 60⟩, ⟨30, 90⟩] ≠ [⟨0, 90⟩] := by decide

/-- Amended C4: a segment merges into the open band exactly when the band's
end equals the segment's start (the band's end then becomes the segment's
end); otherwise the band is emitted.  Adjacent segments [0,60],[60,120],
[200,260] coalesce to [[0,120],[200,260]], but overlapping segments
[0,60],[30,90] are left as [[0,60],[30,90]]. -/
theorem coalesce_adjacent_merge_rule :
    (∀ (cur v : TimeRange) (rest acc : List TimeRange),
      coalesceLoop (v :: rest) (some cur) acc =
        if cur.endS = v.start then
          coalesceLoop rest (some ⟨cur.start, v.endS⟩) acc
        else coalesceLoop rest (some v) (acc ++ [cur])) ∧
    coalesce [⟨0, 60⟩, ⟨60, 120⟩, ⟨200, 260⟩] = [⟨0, 120⟩, ⟨200, 260⟩] ∧
    coalesce [⟨0, 60⟩, ⟨30, 90⟩] = [⟨0, 60⟩, ⟨30, 90⟩] :=
  ⟨fun _ _ _ _ => rfl, by decide, by decide⟩

/-- Claim C5 (code bug): with one availability range [100,160] seconds of
day and the current playhead at 130 — inside the range, so that the
`timestampIsValid` flag computed by `buildTimelineTask` is true — the task
still writes the playhead back to the first range's start (100), because the
write at dvr-ui.ts lines 611-614 is unconditional and `timestampIsValid` is
never consulted, contradicting the comments at lines 586 and 606. -/
theorem buildTimeline_resets_playhead_despite_valid_timestamp :
    timelineTimestampIsValid [⟨100, 160⟩] 0 130 = true ∧
    buildTimelineWrite [⟨100, 160⟩] 0 =
      ⟨100, TimestampSignalSource.dvrUiTimelineComponent⟩ ∧
    (100 : ℚ) ≠ 130 :=
  ⟨by norm_num [timelineTimestampIsValid, coalesce, coalesceLoop, checkTimestampInRange],
   by norm_num [buildTimelineWrite, coalesce, coalesceLoop],
   by norm_num⟩

/-- The clamped zoom level always lies between the bounds (when they are
ordered). -/
theorem clampZoom_mem (c : TimelineConsts) (hb : c.minZoomLevel ≤ c.maxZoomLevel)
    (r : ℚ) : c.minZoomLevel ≤ clampZoom c r ∧ clampZoom c r ≤ c.maxZoomLevel :=
  ⟨le_max_left _ _, max_le hb (min_le_left _ _)⟩

/-- `handleZoom` keeps the zoom level inside the bounds. -/
theorem handleZoom_zoom_mem (c : TimelineConsts) (cw pt : ℚ) (s : TimelineState)
    (r : ℚ) (hb : c.minZoomLevel ≤ c.maxZoomLevel)
    (hz0 : c.minZoomLevel ≤ s.zoomLevel) (hz1 : s.zoomLevel ≤ c.maxZoomLevel) :
    c.minZoomLevel ≤ (handleZoom c cw pt s r).zoomLevel ∧
      (handleZoom c cw pt s r).zoomLevel ≤ c.maxZoomLevel := by
  unfold handleZoom
  by_cases h1 : cw = 0
  · simp only [if_pos h1]
    exact ⟨hz0, hz1⟩
  · by_cases h2 : clampZoom c r = s.zoomLevel
    · simp only [if_neg h1, if_pos h2]
      exact ⟨hz0, hz1⟩
    · simp only [if_neg h1, if_neg h2]
      exact clampZoom_mem c hb r

/-- A single pan or zoom gesture keeps the zoom level inside the bounds. -/
theorem timelineStep_zoom_mem (c : TimelineConsts) (cw pt : ℚ) (s : TimelineState)
    (op : TimelineOp) (hb : c.minZoomLevel ≤ c.maxZoomLevel)
    (hz0 : c.minZoomLevel ≤ s.zoomLevel) (hz1 : s.zoomLevel ≤ c.maxZoomLevel) :
    c.minZoomLevel ≤ (timelineStep c cw pt s op).zoomLevel ∧
      (timelineStep c cw pt s op).zoomLevel ≤ c.maxZoomLevel := by
  cases op with
  | panLeft => exact ⟨hz0, hz1⟩
  | panRight => exact ⟨hz0, hz1⟩
  | zoomInKey => exact handleZoom_zoom_mem c cw pt s _ hb hz0 hz1
  | zoomOutKey => exact handleZoom_zoom_mem c cw pt s _ hb hz0 hz1
  | wheel b => exact handleZoom_zoom_mem c cw pt s _ hb hz0 hz1

/-- Any sequence of gestures keeps the zoom level inside the bounds. -/
theorem runOps_zoom_mem (c : TimelineConsts) (cw pt : ℚ)
    (hb : c.minZoomLevel ≤ c.maxZoomLevel) :
    ∀ (ops : List TimelineOp) (s : TimelineState),
      c.minZoomLevel ≤ s.zoomLevel → s.zoomLevel ≤ c.maxZoomLevel →
      c.minZoomLevel ≤ (runOps c cw pt s ops).zoomLevel ∧
        (runOps c cw pt s ops).zoomLevel ≤ c.maxZoomLevel
  | [], _, h0, h1 => ⟨h0, h1⟩
  | op :: ops, s, h0, h1 => by
      have h := timelineStep_zoom_mem c cw pt s op hb h0 h1
      exact runOps_zoom_mem c cw pt hb ops _ h.1 h.2

/-- When `handleZoom` actually mutates the state, the new offset lies in
[0, max(0, timelineWidth - containerWidth)]. -/
theorem handleZoom_offset_bounds (c : TimelineConsts) (cw pt : ℚ)
    (s : TimelineState) (r : ℚ) (h1 : cw ≠ 0) (h2 : clampZoom c r ≠ s.zoomLevel) :
    0 ≤ (handleZoom c cw pt s r).leftOffset ∧
      (handleZoom c cw pt s r).leftOffset ≤
        max 0 ((handleZoom c cw pt s r).timelineWidth - cw) := by
  simp only [handleZoom, if_neg h1, if_neg h2]
  exact ⟨le_min (le_max_left _ _) (le_max_left _ _), min_le_left _ _⟩

/-- Counterexample for C3: a single keyboard pan-left from a state with
leftOffset 0 drives leftOffset to -50, outside
[0, max(0, timelineWidth - viewportWidth)]; the pan handlers do not clamp. -/
theorem pan_left_escapes_offset_bounds :
    (timelineStep ⟨1, 10⟩ 1000 0 ⟨1, 2400, 0⟩ TimelineOp.panLeft).leftOffset = -50 ∧
    ¬ (0 ≤ (timelineStep ⟨1, 10⟩ 1000 0 ⟨1, 2400, 0⟩ TimelineOp.panLeft).leftOffset) := by
  constructor
  · norm_num [timelineStep]
  · norm_num [timelineStep]

/-- Amended C3: for any sequence of pan / zoom gestures the zoom level stays
in [minZoomLevel, maxZoomLevel] (given ordered bounds and an in-bounds start),
and every mutating zoom leaves leftOffset in
[0, max(0, timelineWidth - viewportWidth)]; keyboard pans, however, change
leftOffset by plus or minus 50 pixels with no clamping, so the offset
invariant does not survive pans (see the counterexample). -/
theorem timeline_zoom_invariants (c : TimelineConsts) (cw pt : ℚ)
    (hb : c.minZoomLevel ≤ c.maxZoomLevel) (s : TimelineState)
    (hz0 : c.minZoomLevel ≤ s.zoomLevel) (hz1 : s.zoomLevel ≤ c.maxZoomLevel)
    (ops : List TimelineOp) :
    (c.minZoomLevel ≤ (runOps c cw pt s ops).zoomLevel ∧
      (runOps c cw pt s ops).zoomLevel ≤ c.maxZoomLevel) ∧
    ∀ req : ℚ, cw ≠ 0 → clampZoom c req ≠ s.zoomLevel →
      0 ≤ (handleZoom c cw pt s req).leftOffset ∧
        (handleZoom c cw pt s req).leftOffset ≤
          max 0 ((handleZoom c cw pt s req).timelineWidth - cw) := by
  refine ⟨runOps_zoom_mem c cw pt hb ops s hz0 hz1, ?_⟩
  intro req h1 h2
  exact handleZoom_offset_bounds c cw pt s req h1 h2

/-- Witness for amended C3 at a concrete state and zoom request. -/
theorem timeline_zoom_invariants_witness :
    0 ≤ (handleZoom ⟨1, 10⟩ 1000 0 ⟨1, 2400, 0⟩ 2).leftOffset :=
  ((timeline_zoom_invariants ⟨1, 10⟩ 1000 0 (by norm_num) ⟨1, 2400, 0⟩
      (by norm_num) (by norm_num) []).2 2 (by norm_num)
      (by norm_num [clampZoom])).1

/-- Claim C8: a zoom request whose clamp equals the current zoom level leaves
the whole timeline state unchanged (the handler returns before any
mutation). -/
theorem handleZoom_noop_when_clamped_equal (c : TimelineConsts) (cw pt : ℚ)
    (s : TimelineState) (req : ℚ) (h : clampZoom c req = s.zoomLevel) :
    handleZoom c cw pt s req = s := by
  unfold handleZoom
  by_cases h1 : cw = 0
  · simp only [if_pos h1]
  · simp only [if_neg h1, if_pos h]

/-- Witness for C8: requesting zoom 1/2 with bounds [1, 10] from zoom 1
clamps back to 1 and mutates nothing. -/
theorem handleZoom_noop_when_clamped_equal_witness :
    handleZoom ⟨1, 10⟩ 1000 0 ⟨1, 2400, 0⟩ (1 / 2) = ⟨1, 2400, 0⟩ :=
  handleZoom_noop_when_clamped_equal ⟨1, 10⟩ 1000 0 ⟨1, 2400, 0⟩ (1 / 2)
    (by norm_num [clampZoom])

/-- Counterexample for C6: with zoom bounds [1/4, 10], viewport width 1000,
anchor time 0 and the valid pre-zoom state (zoom 1, width 2400, offset 1400
= max(0, 2400 - 1000)), zooming out to 1/2 clamps the solved offset (1400)
down to max(0, 1200 - 1000) = 200, moving the anchor's viewport-relative
pixel position from -1400 to -200. -/
theorem zoom_anchor_broken_by_clamp :
    ((0 : ℚ) ≤ 1400 ∧ (1400 : ℚ) ≤ max 0 (2400 - 1000)) ∧
    timeToPixel (handleZoom ⟨1 / 4, 10⟩ 1000 0 ⟨1, 2400, 1400⟩ (1 / 2)).zoomLevel 0 -
        (handleZoom ⟨1 / 4, 10⟩ 1000 0 ⟨1, 2400, 1400⟩ (1 / 2)).leftOffset ≠
      timeToPixel 1 0 - 1400 := by
  constructor
  · norm_num
  · norm_num [handleZoom, clampZoom, zoomRawOffset, timeToPixel, baseZoomLevel,
      SECONDS_IN_DAY]

/-- Amended C6: whenever the solved-for new offset already lies inside
[0, max(0, newTimelineWidth - viewportWidth)] (so the final clamp is the
identity), a mutating `handleZoom` preserves the anchor's viewport-relative
pixel position exactly; when the clamp engages, the anchor may move (see the
counterexample). -/
theorem zoom_anchor_preserved_when_unclamped (c : TimelineConsts) (cw pt : ℚ)
    (s : TimelineState) (req : ℚ)
    (h1 : cw ≠ 0) (h2 : clampZoom c req ≠ s.zoomLevel)
    (h3 : 0 ≤ zoomRawOffset s (clampZoom c req) pt)
    (h4 : zoomRawOffset s (clampZoom c req) pt ≤
      max 0 (24 * baseZoomLevel * clampZoom c req - cw)) :
    timeToPixel (handleZoom c cw pt s req).zoomLevel pt -
        (handleZoom c cw pt s req).leftOffset =
      timeToPixel s.zoomLevel pt - s.leftOffset := by
  simp only [handleZoom, if_neg h1, if_neg h2]
  rw [max_eq_right h3, min_eq_right h4]
  simp only [timeToPixel, zoomRawOffset]
  ring

/-- Witness for amended C6: zoom 1 to 2 with viewport 1000 and anchor at
midday keeps the anchor's viewport position. -/
theorem zoom_anchor_preserved_when_unclamped_witness :
    timeToPixel (handleZoom ⟨1, 10⟩ 1000 43200 ⟨1, 2400, 600⟩ 2).zoomLevel 43200 -
        (handleZoom ⟨1, 10⟩ 1000 43200 ⟨1, 2400, 600⟩ 2).leftOffset =
      timeToPixel 1 43200 - 600 :=
  zoom_anchor_preserved_when_unclamped ⟨1, 10⟩ 1000 43200 ⟨1, 2400, 600⟩ 2
    (by norm_num)
    (by norm_num [clampZoom])
    (by norm_num [zoomRawOffset, clampZoom, baseZoomLevel, SECONDS_IN_DAY])
    (by norm_num [zoomRawOffset, clampZoom, baseZoomLevel, SECONDS_IN_DAY])

/-- Counterexample for C7: clicking at the right edge (clientX 2400, offset
0, zoom 1, so timelineWidth 2400) gives percentage 1 and writes exactly
86400, which is not in the half-open interval [0, 86400). -/
theorem mouseDown_writes_exactly_86400 :
    (handleMouseDown 2400 0 1).1 = JSNum.fin 86400 ∧ ¬ ((86400 : ℚ) < 86400) := by
  constructor
  · norm_num [handleMouseDown, mouseDownTemp, mouseDownPercentage, jsDiv,
      jsMax0, jsMin1, jsMulPos, baseZoomLevel, SECONDS_IN_DAY]
    rfl
  · norm_num

/-- With a nonzero timeline width the click computation is the finite
clamped formula. -/
theorem mouseDownTemp_pos_width (clientX leftOffset zoomLevel : ℚ)
    (hW : 24 * baseZoomLevel * zoomLevel ≠ 0) :
    mouseDownTemp clientX leftOffset zoomLevel =
      JSNum.fin (86400 * min 1 (max 0
        ((clientX + leftOffset) / (24 * baseZoomLevel * zoomLevel)))) := by
  simp [mouseDownTemp, mouseDownPercentage, jsDiv, hW, jsMax0, jsMin1, jsMulPos,
    SECONDS_IN_DAY]
  norm_num

/-- Amended C7: the value written to the playhead by a click is always a
finite number in the closed interval [0, 86400]: it equals
clamp01((clientX + leftOffset) / timelineWidth) * 86400 whenever the
timeline width is nonzero, a NaN computation fails safe to 0, and NaN never
reaches the shared state; the upper endpoint 86400 itself is attainable, so
the half-open bound of the original claim is the only part that fails. -/
theorem mouseDown_value_safe_closed_range (clientX leftOffset zoomLevel : ℚ) :
    ∃ v : ℚ, (handleMouseDown clientX leftOffset zoomLevel).1 = JSNum.fin v ∧
      0 ≤ v ∧ v ≤ 86400 ∧
      (mouseDownTemp clientX leftOffset zoomLevel = JSNum.nan → v = 0) ∧
      (∀ q : ℚ, mouseDownTemp clientX leftOffset zoomLevel = JSNum.fin q → v = q) ∧
      (24 * baseZoomLevel * zoomLevel ≠ 0 →
        v = 86400 * min 1 (max 0
          ((clientX + leftOffset) / (24 * baseZoomLevel * zoomLevel)))) := by
  by_cases hW : 24 * baseZoomLevel * zoomLevel = 0
  · rcases lt_trichotomy (clientX + leftOffset) 0 with ha | ha | ha
    · have ht : mouseDownTemp clientX leftOffset zoomLevel = JSNum.fin 0 := by
        simp [mouseDownTemp, mouseDownPercentage, jsDiv, hW, ha.ne,
          not_lt.mpr ha.le, jsMax0, jsMin1, jsMulPos]
      refine ⟨0, ?_, le_refl 0, by norm_num, fun _ => rfl, fun q hq => ?_,
        fun hc => absurd hW hc⟩
      · simp [handleMouseDown, ht]
      · rw [ht] at hq
        injection hq
    · have ht : mouseDownTemp clientX leftOffset zoomLevel = JSNum.nan := by
        simp [mouseDownTemp, mouseDownPercentage, jsDiv, hW, ha, jsMax0, jsMin1,
          jsMulPos]
      refine ⟨0, ?_, le_refl 0, by norm_num, fun _ => rfl, fun q hq => ?_,
        fun hc => absurd hW hc⟩
      · simp [handleMouseDown, ht]
      · rw [ht] at hq
        exact absurd hq (by simp)
    · have ht : mouseDownTemp clientX leftOffset zoomLevel = JSNum.fin 86400 := by
        simp [mouseDownTemp, mouseDownPercentage, jsDiv, hW, ne_of_gt ha, ha,
          jsMax0, jsMin1, jsMulPos, SECONDS_IN_DAY]
        norm_num
      refine ⟨86400, ?_, by norm_num, le_refl 86400, fun hn => ?_, fun q hq => ?_,
        fun hc => absurd hW hc⟩
      · simp [handleMouseDown, ht]
      · rw [ht] at hn
        exact absurd hn (by simp)
      · rw [ht] at hq
        injection hq
  · have ht := mouseDownTemp_pos_width clientX leftOffset zoomLevel hW
    set m : ℚ := min 1 (max 0
      ((clientX + leftOffset) / (24 * baseZoomLevel * zoomLevel))) with hm
    have hm0 : 0 ≤ m := le_min zero_le_one (le_max_left _ _)
    have hm1 : m ≤ 1 := min_le_left _ _
    refine ⟨86400 * m, ?_, by positivity, ?_, fun hn => ?_, fun q hq => ?_,
      fun _ => rfl⟩
    · simp [handleMouseDown, ht]
    · calc 86400 * m ≤ 86400 * 1 := by
            exact mul_le_mul_of_nonneg_left hm1 (by norm_num)
        _ = 86400 := by norm_num
    · rw [ht] at hn
      exact absurd hn (by simp)
    · rw [ht] at hq
      injection hq

/-- Witness for amended C7 at the degenerate zero-width input (zoom 0,
click at the origin), where the division is 0/0. -/
theorem mouseDown_value_safe_closed_range_witness :
    ∃ v : ℚ, (handleMouseDown 0 0 0).1 = JSNum.fin v ∧
      0 ≤ v ∧ v ≤ 86400 ∧
      (mouseDownTemp 0 0 0 = JSNum.nan → v = 0) ∧
      (∀ q : ℚ, mouseDownTemp 0 0 0 = JSNum.fin q → v = q) ∧
      (24 * baseZoomLevel * (0 : ℚ) ≠ 0 →
        v = 86400 * min 1 (max 0 ((0 + 0) / (24 * baseZoomLevel * 0)))) :=
  mouseDown_value_safe_closed_range 0 0 0

/-- Counterexample for C9: a stored segment [86370, 86430] for camera "a"
overlaps the day [86400, 172800] (it starts before midnight and ends after),
yet the day query returns the empty list, because the query keeps only
segments with startDay <= vidStartEpoch and vidEndEpoch <= endDay —
containment, not overlap. -/
theorem getVideosOfDay_misses_overlapping_segment :
    getVideosOfDay [⟨"a", 86370, 86430, 86370, 86430, "f.mp4"⟩] "a" 86400 172800 = [] ∧
    ((86370 : ℚ) < 172800 ∧ (86400 : ℚ) < 86430) := by
  constructor
  · norm_num [getVideosOfDay]
  · norm_num

/-- Amended C9: for every camera id and day interval the query returns
exactly the stored rows of that camera whose segment is contained in the day
(startDay <= vidStartEpoch and vidEndEpoch <= endDay) — as a permutation of
the filtered store — sorted ascending by the stored vidDayStart field; the
empty list is a valid result. -/
theorem getVideosOfDay_contained_sorted (db : List Video) (camId : String)
    (startDay endDay : ℚ) :
    (getVideosOfDay db camId startDay endDay).Perm
      (db.filter fun v => decide (v.camName = camId ∧
        startDay ≤ v.vidStartEpoch ∧ v.vidEndEpoch ≤ endDay)) ∧
    (getVideosOfDay db camId startDay endDay).Pairwise
      (fun a b => a.vidDayStart ≤ b.vidDayStart) := by
  unfold getVideosOfDay
  constructor
  · exact List.mergeSort_perm _ _
  · refine List.Pairwise.imp (fun hab => of_decide_eq_true hab)
      (List.sorted_mergeSort ?_ ?_ _)
    · intro a b c hab hbc
      exact decide_eq_true (le_trans (of_decide_eq_true hab) (of_decide_eq_true hbc))
    · intro a b
      rcases le_total a.vidDayStart b.vidDayStart with h | h
      · simp [h]
      · simp [h]

/-- Claim C10: every row inserted by PushCamDataToDatabase has
vidEndEpoch - vidStartEpoch = 60: the end is computed as the parsed start
plus one minute, regardless of the media file's actual length. -/
theorem pushed_entries_duration_sixty (camData : List CamEntryData) (e : Video)
    (h : e ∈ pushCamDataEntries camData) :
    e.vidEndEpoch - e.vidStartEpoch = 60 := by
  unfold pushCamDataEntries at h
  simp only [List.mem_flatMap] at h
  obtain ⟨cam, _, de, _, h⟩ := h
  cases hd : de.dateEpoch with
  | none =>
      rw [hd] at h
      simp at h
  | some d =>
      rw [hd] at h
      simp only [List.mem_flatMap, List.mem_filterMap] at h
      obtain ⟨hb, _, v, _, hv⟩ := h
      rw [Option.map_eq_some'] at hv
      obtain ⟨s, _, hv⟩ := hv
      rw [← hv]
      norm_num

/-- Witness for C10: one camera, one valid date (epoch 1000), one valid
video start (epoch 1500) produces the row with end 1560 = 1500 + 60. -/
theorem pushed_entries_duration_sixty_witness :
    ((⟨"cam1", 1500, 1560, 500, 560, "f.mp4"⟩ : Video).vidEndEpoch -
      (⟨"cam1", 1500, 1560, 500, 560, "f.mp4"⟩ : Video).vidStartEpoch) = 60 :=
  pushed_entries_duration_sixty
    [⟨"cam1", [⟨some 1000, [⟨[⟨some 1500, "f.mp4"⟩]⟩]⟩]⟩] _
    (by norm_num [pushCamDataEntries])
